import Mathlib

/-!
Verification of the GarminSync activity-ingestion core against its
natural-language specification.  The Lean definitions below are shallow
embeddings of the Python source in `garminsync/activity_parser.py`,
`garminsync/fit_processor/power_estimator.py` and
`garminsync/fit_processor/gear_analyzer.py`.

Conventions used throughout:
* Python floats are modelled as real numbers (`ℝ`); the estimator claims
  that concern non-finite floats use an explicit value type `PyVal` that
  distinguishes finite numbers, NaN, the two infinities and non-numeric
  values, mirroring the `isinstance` / comparison semantics the source
  relies on.
* Fallible Python code (code that can raise) is modelled with
  `Except PyErr`; a `try/except` that converts every exception into
  `None` is modelled with `Except.toOption`.
* Byte strings are modelled as `List ℕ` (one entry per byte).
-/

open scoped Classical

namespace GarminSync

/-! ### FormatSniffer: `detect_file_type` (activity_parser.py lines 10-26)

The Python function reads the first 128 bytes of the file and classifies
them; an unreadable source is reported as the distinct outcome `"error"`.
The byte source is modelled as `Option (List ℕ)`: `none` models an
unreadable file (the `except` branch), `some bytes` models a readable
file with the given contents. -/

inductive FileType where
  | xml
  | fit
  | unknown
  | error
deriving DecidableEq

/-- The byte string `"<?xml"`. -/
def xmlSig : List ℕ := [60, 63, 120, 109, 108]

/-- The byte string `".FIT"`. -/
def fitTagA : List ℕ := [46, 70, 73, 84]

/-- The byte string `"FIT."`. -/
def fitTagB : List ℕ := [70, 73, 84, 46]

/-- Embedding of the classification cascade of `detect_file_type` applied
to the already-read header bytes.  Python slices (`header[4:8]`) truncate
silently, which `List.drop`/`List.take` reproduce exactly. -/
def detect_file_type_bytes (header : List ℕ) : FileType :=
  if xmlSig <:+: header.take 20 then .xml
  else if 8 ≤ header.length ∧ (header.drop 4).take 4 = fitTagA then .fit
  else if 8 ≤ header.length ∧
      (header.take 4 = fitTagA ∨ (header.drop 4).take 4 = fitTagB ∨
        (header.drop 8).take 4 = fitTagA) then .fit
  else .unknown

/-- Embedding of `detect_file_type` (activity_parser.py lines 10-26):
read at most 128 bytes and classify; an unreadable source gives
`FileType.error`. -/
def detect_file_type (source : Option (List ℕ)) : FileType :=
  match source with
  | none => .error
  | some bytes => detect_file_type_bytes (bytes.take 128)

/-- The spec-side XML condition: `"<?xml"` occurs within the first
20 bytes of the header. -/
def xmlCond (h : List ℕ) : Prop := xmlSig <:+: h.take 20

/-- The spec-side FIT condition: the union of the length-gated tag checks
of steps 2 and 3 of the sniffing algorithm. -/
def fitCond (h : List ℕ) : Prop :=
  8 ≤ h.length ∧
    ((h.drop 4).take 4 = fitTagA ∨ h.take 4 = fitTagA ∨
      (h.drop 4).take 4 = fitTagB ∨ (h.drop 8).take 4 = fitTagA)

theorem detect_file_type_bytes_characterization (h : List ℕ) :
    (detect_file_type_bytes h = .xml ↔ xmlCond h)
    ∧ (detect_file_type_bytes h = .fit ↔ (¬ xmlCond h ∧ fitCond h))
    ∧ (detect_file_type_bytes h = .unknown ↔ (¬ xmlCond h ∧ ¬ fitCond h)) := by
  unfold detect_file_type_bytes xmlCond fitCond
  split_ifs with h1 h2 h3 <;> refine ⟨?_, ?_, ?_⟩ <;> simp <;> tauto

/-- C5: `detect_file_type` is a deterministic total function of the first
at most 128 bytes, classifying in the stated order: `<?xml` within the
first 20 bytes gives Xml even when a FIT tag is present; else the
length-gated FIT tag checks give BinaryLog; else Unrecognized (shorter
buffers fall through because the length gate and the truncated slices
fail); an unreadable source gives the distinct `error` outcome. -/
theorem detect_file_type_spec_c5 (bytes : List ℕ) :
    (detect_file_type (some bytes) = .xml ↔ xmlCond (bytes.take 128))
    ∧ (detect_file_type (some bytes) = .fit ↔
        (¬ xmlCond (bytes.take 128) ∧ fitCond (bytes.take 128)))
    ∧ (detect_file_type (some bytes) = .unknown ↔
        (¬ xmlCond (bytes.take 128) ∧ ¬ fitCond (bytes.take 128)))
    ∧ detect_file_type (some bytes) = detect_file_type (some (bytes.take 128))
    ∧ detect_file_type none = .error := by
  refine ⟨(detect_file_type_bytes_characterization (bytes.take 128)).1,
    (detect_file_type_bytes_characterization (bytes.take 128)).2.1,
    (detect_file_type_bytes_characterization (bytes.take 128)).2.2, ?_, rfl⟩
  simp [detect_file_type, List.take_take]

/-! ### Error taxonomy

The Python exceptions the embedded code can raise.  The first two are the
`ValueError`s of `PowerEstimator.calculate_power`, the next two the
`ValueError`s of `SinglespeedAnalyzer.analyze_gear_ratio`; `zeroDivision`
models Python's `ZeroDivisionError` from float division by zero. -/

inductive PyErr where
  | speedNegative
  | gradientNotNumber
  | emptyInput
  | lengthMismatch
  | zeroDivision
deriving DecidableEq

/-! ### PhysicsPowerModel: `PowerEstimator.calculate_power`
(power_estimator.py lines 13-39)

Finite Python floats are modelled as real numbers.  The constants are the
hard-coded instance attributes of `PowerEstimator`: bike 10 kg, rider
75 kg, rolling resistance 0.004, drag coefficient 0.88, frontal area
0.4 m², drivetrain efficiency 0.97. -/

/-- Air density derived from the barometric pressure approximation
(power_estimator.py lines 22-25). -/
noncomputable def air_density (air_temp_c altitude_m : ℝ) : ℝ :=
  101325 * (1 - 0.0000225577 * altitude_m) ^ (5.25588 : ℝ) /
    (287.05 * (air_temp_c + 273.15))

/-- The numeric body of `calculate_power` (power_estimator.py lines
27-39): rolling-resistance power plus gravitational power plus
aerodynamic power, divided by the drivetrain efficiency. -/
noncomputable def power_value (speed_ms gradient_percent air_temp_c altitude_m : ℝ) : ℝ :=
  (0.004 * (10.0 + 75.0) * 9.81 * Real.cos (Real.arctan (gradient_percent / 100)) * speed_ms
    + (10.0 + 75.0) * 9.81 * Real.sin (Real.arctan (gradient_percent / 100)) * speed_ms
    + 0.5 * air_density air_temp_c altitude_m * 0.88 * 0.4 * speed_ms ^ 3) / 0.97

/-- Embedding of `calculate_power` for finite (real) inputs, as invoked by
the pipeline: the `isinstance` checks are vacuously satisfied and only the
`speed_ms < 0` validation can fire (power_estimator.py lines 17-18). -/
noncomputable def calculate_power (speed_ms gradient_percent air_temp_c altitude_m : ℝ) :
    Except PyErr ℝ :=
  if speed_ms < 0 then .error .speedNegative
  else .ok (power_value speed_ms gradient_percent air_temp_c altitude_m)

/-- A Python value as seen by the validation code of `calculate_power`:
a finite int/float, a float NaN, a float infinity (either sign), or a
value that is not an int/float at all. -/
inductive PyVal where
  | num : ℝ → PyVal
  | nan
  | inf
  | ninf
  | nonNum

/-- Python `isinstance(v, (int, float))`.  NaN and the infinities are
instances of `float`. -/
def PyVal.isNum : PyVal → Bool
  | .nonNum => false
  | _ => true

/-- The Python comparison `v < 0` under IEEE-754: NaN and positive
infinity compare false, negative infinity true.  (`nonNum` is never
compared: the `isinstance` check short-circuits first.) -/
noncomputable def PyVal.ltZero : PyVal → Bool
  | .num x => decide (x < 0)
  | .ninf => true
  | _ => false

/-- Result of the float computation on possibly non-finite operands:
finite operands give the exact real result; any non-finite numeric
operand is abstracted as `nan` (its exact value is irrelevant to the
claims, which only inspect whether the call raises). -/
noncomputable def pyPowerResult (speed_ms gradient_percent : PyVal)
    (air_temp_c altitude_m : ℝ) : PyVal :=
  match speed_ms, gradient_percent with
  | .num s, .num g => .num (power_value s g air_temp_c altitude_m)
  | _, _ => .nan

/-- Embedding of `calculate_power` over Python values (power_estimator.py
lines 13-39), retaining the source's validation: reject when the speed is
not an int/float or compares below zero, then reject when the gradient is
not an int/float; otherwise compute. -/
noncomputable def calculate_power_py (speed_ms gradient_percent : PyVal)
    (air_temp_c altitude_m : ℝ) : Except PyErr PyVal :=
  if !speed_ms.isNum || speed_ms.ltZero then .error .speedNegative
  else if !gradient_percent.isNum then .error .gradientNotNumber
  else .ok (pyPowerResult speed_ms gradient_percent air_temp_c altitude_m)

/-- C2 counterexample: a NaN or infinite gradient is an instance of
`float`, so the validation accepts it and `calculate_power` returns
without signalling a ValidationFailure, although NaN and the infinities
are not finite numbers. -/
theorem calculate_power_py_c2_counterexample :
    calculate_power_py (.num 1) .nan 20 0 = .ok .nan
    ∧ calculate_power_py (.num 1) .inf 20 0 = .ok .nan
    ∧ PyVal.isNum .nan = true ∧ PyVal.isNum .inf = true := by
  have hz : PyVal.ltZero (.num 1) = false := by norm_num [PyVal.ltZero]
  refine ⟨?_, ?_, rfl, rfl⟩
  all_goals simp [calculate_power_py, PyVal.isNum, hz, pyPowerResult]

/-- C2 (amended): `calculate_power` signals a ValidationFailure exactly
when the speed is not an int/float or compares below zero, or the
gradient is not an int/float.  In particular every speed < 0 is rejected
and every speed ≥ 0 with a numeric gradient returns a value, but NaN and
infinite gradients are accepted because they are `float` instances: the
check is a type check, not a finiteness check. -/
theorem calculate_power_py_validation_c2 (speed_ms gradient_percent : PyVal) :
    (∃ e, calculate_power_py speed_ms gradient_percent 20 0 = .error e) ↔
      (speed_ms.isNum = false ∨ speed_ms.ltZero = true ∨
        gradient_percent.isNum = false) := by
  unfold calculate_power_py
  split_ifs with h1 h2 <;> simp_all
  tauto

/-- C3 counterexample: at the fixed environmental parameters
air_temp_c = -300 (below absolute zero, accepted without validation) the
derived air density is negative, the cubic aerodynamic term dominates
with a negative sign, and the estimate strictly decreases from speed 1 to
speed 2 at gradient 0. -/
theorem calculate_power_c3_counterexample :
    ∃ p1 p2 : ℝ,
      calculate_power 1 0 (-300) 0 = .ok p1
      ∧ calculate_power 2 0 (-300) 0 = .ok p2
      ∧ (0:ℝ) ≤ 1 ∧ (1:ℝ) < 2 ∧ (0:ℝ) ≤ 0
      ∧ p2 < p1 := by
  refine ⟨power_value 1 0 (-300) 0, power_value 2 0 (-300) 0, ?_, ?_,
    by norm_num, by norm_num, le_refl 0, ?_⟩
  · unfold calculate_power
    rw [if_neg (by norm_num)]
  · unfold calculate_power
    rw [if_neg (by norm_num)]
  · have h0 : ((0:ℝ) / 100) = 0 := by norm_num
    simp only [power_value, air_density, h0, Real.arctan_zero, Real.cos_zero, Real.sin_zero]
    rw [show ((1:ℝ) - 0.0000225577 * 0) = 1 by norm_num, Real.one_rpow]
    norm_num

/-- C3 (amended): for every fixed gradient ≥ 0 and fixed environmental
parameters with temperature above absolute zero and altitude inside the
domain of the barometric approximation (so that the derived air density
is nonnegative), `calculate_power` is strictly increasing in speed over
speeds ≥ 0, and never signals a failure for such speeds. -/
theorem calculate_power_strictMono_c3
    (gradient_percent air_temp_c altitude_m s1 s2 : ℝ)
    (hg : 0 ≤ gradient_percent) (ht : -273.15 < air_temp_c)
    (ha : 0.0000225577 * altitude_m ≤ 1) (hs1 : 0 ≤ s1) (h12 : s1 < s2) :
    ∃ p1 p2, calculate_power s1 gradient_percent air_temp_c altitude_m = .ok p1
      ∧ calculate_power s2 gradient_percent air_temp_c altitude_m = .ok p2
      ∧ p1 < p2 := by
  have hs2 : 0 ≤ s2 := le_trans hs1 h12.le
  refine ⟨power_value s1 gradient_percent air_temp_c altitude_m,
    power_value s2 gradient_percent air_temp_c altitude_m, ?_, ?_, ?_⟩
  · unfold calculate_power
    rw [if_neg (not_lt.mpr hs1)]
  · unfold calculate_power
    rw [if_neg (not_lt.mpr hs2)]
  · have hcos : 0 < Real.cos (Real.arctan (gradient_percent / 100)) := Real.cos_arctan_pos _
    have hsin : 0 ≤ Real.sin (Real.arctan (gradient_percent / 100)) := by
      rw [Real.sin_arctan]
      exact div_nonneg (div_nonneg hg (by norm_num)) (Real.sqrt_nonneg _)
    have hden : 0 ≤ air_density air_temp_c altitude_m := by
      unfold air_density
      have h1 : (0:ℝ) ≤ 1 - 0.0000225577 * altitude_m := by linarith
      have h2 : (0:ℝ) ≤ (1 - 0.0000225577 * altitude_m) ^ (5.25588:ℝ) :=
        Real.rpow_nonneg h1 _
      have h3 : (0:ℝ) < 287.05 * (air_temp_c + 273.15) :=
        mul_pos (by norm_num) (by linarith)
      exact div_nonneg (mul_nonneg (by norm_num) h2) h3.le
    unfold power_value
    rw [div_lt_div_iff_of_pos_right (by norm_num : (0:ℝ) < 0.97)]
    have t1 : 0.004 * (10.0 + 75.0) * 9.81 * Real.cos (Real.arctan (gradient_percent / 100)) * s1
        < 0.004 * (10.0 + 75.0) * 9.81 * Real.cos (Real.arctan (gradient_percent / 100)) * s2 := by
      have hc : (0:ℝ) < 0.004 * (10.0 + 75.0) * 9.81 *
          Real.cos (Real.arctan (gradient_percent / 100)) :=
        mul_pos (by norm_num) hcos
      exact (mul_lt_mul_left hc).mpr h12
    have t2 : (10.0 + 75.0) * 9.81 * Real.sin (Real.arctan (gradient_percent / 100)) * s1
        ≤ (10.0 + 75.0) * 9.81 * Real.sin (Real.arctan (gradient_percent / 100)) * s2 := by
      have hc : (0:ℝ) ≤ (10.0 + 75.0) * 9.81 *
          Real.sin (Real.arctan (gradient_percent / 100)) :=
        mul_nonneg (by norm_num) hsin
      exact mul_le_mul_of_nonneg_left h12.le hc
    have t3 : 0.5 * air_density air_temp_c altitude_m * 0.88 * 0.4 * s1 ^ 3
        ≤ 0.5 * air_density air_temp_c altitude_m * 0.88 * 0.4 * s2 ^ 3 := by
      have hp : s1 ^ 3 ≤ s2 ^ 3 := pow_le_pow_left₀ hs1 h12.le 3
      have hc : (0:ℝ) ≤ 0.5 * air_density air_temp_c altitude_m * 0.88 * 0.4 :=
        mul_nonneg (mul_nonneg (mul_nonneg (by norm_num) hden) (by norm_num)) (by norm_num)
      exact mul_le_mul_of_nonneg_left hp hc
    linarith

/-- C3 witness: concrete instance of the amended monotonicity at the
default environment, gradient 0, speeds 0 < 1. -/
theorem calculate_power_strictMono_c3_witness :
    ∃ p1 p2, calculate_power 0 0 20 0 = .ok p1
      ∧ calculate_power 1 0 20 0 = .ok p2 ∧ p1 < p2 :=
  calculate_power_strictMono_c3 0 20 0 0 1 (by norm_num) (by norm_num)
    (by norm_num) (by norm_num) (by norm_num)

/-! ### GearRatioEstimator: `SinglespeedAnalyzer.analyze_gear_ratio`
(gear_analyzer.py lines 9-73)

The instance constants: chainring options [38, 46], cogs 11..27, wheel
circumference 2.096 m, wheel diameter 27.0 inches. -/

/-- The result dictionary returned by `analyze_gear_ratio`
(gear_analyzer.py lines 66-73). -/
structure GearPayload where
  estimated_chainring_teeth : ℕ
  estimated_cassette_teeth : ℕ
  gear_ratio : ℝ
  gear_inches : ℝ
  development_meters : ℝ
  confidence_score : ℝ

/-- Indices whose gradient passes the flat-terrain filter
(gear_analyzer.py line 18). -/
noncomputable def flat_indices (gradient_data : List ℝ) : List ℕ :=
  (List.range gradient_data.length).filter fun i => decide (|gradient_data.getD i 0| < 3.0)

/-- Speeds at the flat indices (gear_analyzer.py line 19). -/
noncomputable def flat_speeds (speed_data gradient_data : List ℝ) : List ℝ :=
  (flat_indices gradient_data).map fun i => speed_data.getD i 0

/-- Cadences at the flat indices (gear_analyzer.py line 20). -/
noncomputable def flat_cadences (cadence_data gradient_data : List ℝ) : List ℝ :=
  (flat_indices gradient_data).map fun i => cadence_data.getD i 0

/-- Positions (into the flat lists) passing the speed/cadence filter
(gear_analyzer.py lines 23-24). -/
noncomputable def valid_indices (speed_data cadence_data gradient_data : List ℝ) : List ℕ :=
  (List.range (flat_speeds speed_data gradient_data).length).filter fun i =>
    decide (4.17 < (flat_speeds speed_data gradient_data).getD i 0
      ∧ 0 < (flat_cadences cadence_data gradient_data).getD i 0)

/-- The candidate (chainring, cog) pairs, in the iteration order of the
nested loops of gear_analyzer.py lines 45-46. -/
def gridPairs : List (ℕ × ℕ) :=
  ([38, 46]).flatMap fun ch => (List.range' 11 17).map fun cog => (ch, cog)

/-- One iteration of the grid search loop body (gear_analyzer.py lines
47-51): update (best_fit, min_diff) when the candidate's difference beats
the current minimum; `none` as min_diff models the initial `float("inf")`,
which every difference beats. -/
noncomputable def gearStep (avg : ℝ) (st : Option (ℕ × ℕ × ℝ) × Option ℝ) (p : ℕ × ℕ) :
    Option (ℕ × ℕ × ℝ) × Option ℝ :=
  if (match st.2 with
      | none => True
      | some d => |(p.1 : ℝ) / (p.2 : ℝ) - avg| < d) then
    (some (p.1, p.2, (p.1 : ℝ) / (p.2 : ℝ)), some (|(p.1 : ℝ) / (p.2 : ℝ) - avg|))
  else st

/-- The grid search of gear_analyzer.py lines 43-51. -/
noncomputable def gearSearch (avg : ℝ) : Option (ℕ × ℕ × ℝ) × Option ℝ :=
  gridPairs.foldl (gearStep avg) (none, none)

/-- Speeds at the surviving positions (gear_analyzer.py line 29). -/
noncomputable def valid_speeds (speed_data cadence_data gradient_data : List ℝ) : List ℝ :=
  (valid_indices speed_data cadence_data gradient_data).map fun i =>
    (flat_speeds speed_data gradient_data).getD i 0

/-- Cadences at the surviving positions (gear_analyzer.py line 30). -/
noncomputable def valid_cadences (speed_data cadence_data gradient_data : List ℝ) : List ℝ :=
  (valid_indices speed_data cadence_data gradient_data).map fun i =>
    (flat_cadences cadence_data gradient_data).getD i 0

/-- Empirical gear ratios (speed × 60) / (cadence × wheel circumference)
of the surviving samples (gear_analyzer.py lines 33-37). -/
noncomputable def gear_ratios (speed_data cadence_data gradient_data : List ℝ) : List ℝ :=
  ((valid_speeds speed_data cadence_data gradient_data).zip
      (valid_cadences speed_data cadence_data gradient_data)).map fun sc =>
    sc.1 * 60 / (sc.2 * 2.096)

/-- Average empirical gear ratio (gear_analyzer.py line 40). -/
noncomputable def avg_gear_ratio (speed_data cadence_data gradient_data : List ℝ) : ℝ :=
  (gear_ratios speed_data cadence_data gradient_data).sum /
    ((gear_ratios speed_data cadence_data gradient_data).length : ℝ)

/-- Embedding of `analyze_gear_ratio` (gear_analyzer.py lines 9-73):
validate, filter for flat terrain, filter for speed/cadence, average the
empirical gear ratios, grid-search the best chainring/cog pair and
assemble the result. -/
noncomputable def analyze_gear_ratio (speed_data cadence_data gradient_data : List ℝ) :
    Except PyErr (Option GearPayload) :=
  if speed_data = [] ∨ cadence_data = [] ∨ gradient_data = [] then .error .emptyInput
  else if speed_data.length ≠ cadence_data.length ∨ speed_data.length ≠ gradient_data.length then
    .error .lengthMismatch
  else if valid_indices speed_data cadence_data gradient_data = [] then .ok none
  else
    match gearSearch (avg_gear_ratio speed_data cadence_data gradient_data) with
    | (none, _) => .ok none
    | (some (chainring, cog, ratio), min_diff) =>
      .ok (some ⟨chainring, cog, ratio, ratio * 27.0, ratio * 2.096,
        if 0 < ratio then max 0 (1 - min_diff.getD 0 / ratio) else 0⟩)

/-- An index of the input series that survives both filters of the gear
analysis: flat terrain, then sufficient speed and nonzero cadence. -/
def gearSurvivor (speed_data cadence_data gradient_data : List ℝ) : Prop :=
  ∃ i, i < gradient_data.length ∧ |gradient_data.getD i 0| < 3.0
    ∧ 4.17 < speed_data.getD i 0 ∧ 0 < cadence_data.getD i 0

theorem getD_of_lt {α : Type} (l : List α) (d : α) (j : ℕ) (h : j < l.length) :
    l.getD j d = l.get ⟨j, h⟩ := by
  rw [List.getD_eq_getElem?_getD, List.getElem?_eq_getElem h]
  rfl

theorem gearStep_isSome (avg : ℝ) (st : Option (ℕ × ℕ × ℝ) × Option ℝ) (p : ℕ × ℕ)
    (h : st.1.isSome) : (gearStep avg st p).1.isSome := by
  unfold gearStep
  split_ifs with hc
  · rfl
  · exact h

theorem foldl_gearStep_isSome (avg : ℝ) (l : List (ℕ × ℕ))
    (st : Option (ℕ × ℕ × ℝ) × Option ℝ) (h : st.1.isSome) :
    (l.foldl (gearStep avg) st).1.isSome := by
  induction l generalizing st with
  | nil => exact h
  | cons p l ih =>
    rw [List.foldl_cons]
    exact ih _ (gearStep_isSome avg st p h)

theorem gearSearch_isSome (avg : ℝ) : (gearSearch avg).1.isSome := by
  unfold gearSearch
  have hg : gridPairs = (38, 11) :: gridPairs.tail := by decide
  rw [hg, List.foldl_cons]
  apply foldl_gearStep_isSome
  simp [gearStep]

theorem valid_indices_eq_nil_iff (speed_data cadence_data gradient_data : List ℝ) :
    valid_indices speed_data cadence_data gradient_data = [] ↔
      ¬ gearSurvivor speed_data cadence_data gradient_data := by
  unfold valid_indices gearSurvivor
  rw [List.filter_eq_nil_iff]
  constructor
  · intro h hs
    obtain ⟨i, hi, hg3, hs4, hc0⟩ := hs
    have him : i ∈ flat_indices gradient_data := by
      unfold flat_indices
      rw [List.mem_filter, List.mem_range]
      exact ⟨hi, by simpa using hg3⟩
    obtain ⟨j, hj, hji⟩ := List.mem_iff_getElem.mp him
    have hjs : j < (flat_speeds speed_data gradient_data).length := by
      unfold flat_speeds
      rw [List.length_map]
      exact hj
    have hjc : j < (flat_cadences cadence_data gradient_data).length := by
      unfold flat_cadences
      rw [List.length_map]
      exact hj
    apply h j (List.mem_range.mpr hjs)
    rw [decide_eq_true_iff]
    constructor
    · rw [getD_of_lt _ _ _ hjs]
      unfold flat_speeds
      simp only [List.get_eq_getElem, List.getElem_map, hji]
      exact hs4
    · rw [getD_of_lt _ _ _ hjc]
      unfold flat_cadences
      simp only [List.get_eq_getElem, List.getElem_map, hji]
      exact hc0
  · intro hns j hj hpred
    rw [List.mem_range] at hj
    rw [decide_eq_true_iff] at hpred
    apply hns
    have hjF : j < (flat_indices gradient_data).length := by
      have : (flat_speeds speed_data gradient_data).length =
          (flat_indices gradient_data).length := by
        unfold flat_speeds
        rw [List.length_map]
      rw [← this]
      exact hj
    have hjc : j < (flat_cadences cadence_data gradient_data).length := by
      unfold flat_cadences
      rw [List.length_map]
      exact hjF
    have him : (flat_indices gradient_data).get ⟨j, hjF⟩ ∈ flat_indices gradient_data := by
      rw [List.get_eq_getElem]
      exact List.getElem_mem _
    have hmem := him
    unfold flat_indices at hmem
    rw [List.mem_filter, List.mem_range, decide_eq_true_iff] at hmem
    refine ⟨(flat_indices gradient_data).get ⟨j, hjF⟩, hmem.1, hmem.2, ?_, ?_⟩
    · have := hpred.1
      rw [getD_of_lt _ _ _ hj] at this
      unfold flat_speeds at this
      simpa using this
    · have := hpred.2
      rw [getD_of_lt _ _ _ hjc] at this
      unfold flat_cadences at this
      simpa using this

/-- C1: for non-empty input series of equal length, `analyze_gear_ratio`
returns null exactly when no index survives the flat-terrain filter
(|gradient| < 3.0) followed by the speed/cadence filter (speed > 4.17 and
cadence > 0); and whenever some series is empty or the lengths differ it
signals a ValidationFailure (a raised ValueError) instead. -/
theorem analyze_gear_ratio_c1 (speed_data cadence_data gradient_data : List ℝ) :
    (speed_data ≠ [] → cadence_data ≠ [] → gradient_data ≠ [] →
      speed_data.length = cadence_data.length →
      speed_data.length = gradient_data.length →
      (analyze_gear_ratio speed_data cadence_data gradient_data = .ok none ↔
        ¬ gearSurvivor speed_data cadence_data gradient_data))
    ∧ ((speed_data = [] ∨ cadence_data = [] ∨ gradient_data = []
        ∨ speed_data.length ≠ cadence_data.length
        ∨ speed_data.length ≠ gradient_data.length) →
      ∃ e, analyze_gear_ratio speed_data cadence_data gradient_data = .error e) := by
  constructor
  · intro h1 h2 h3 hlc hlg
    unfold analyze_gear_ratio
    rw [if_neg (by simp [h1, h2, h3]), if_neg (by push_neg; exact ⟨hlc, hlg⟩)]
    by_cases hv : valid_indices speed_data cadence_data gradient_data = []
    · rw [if_pos hv]
      simp only [true_iff, eq_self_iff_true]
      exact (valid_indices_eq_nil_iff _ _ _).mp hv
    · rw [if_neg hv]
      obtain ⟨⟨chainring, cog, ratio⟩, hx⟩ := Option.isSome_iff_exists.mp
        (gearSearch_isSome (avg_gear_ratio speed_data cadence_data gradient_data))
      have hpair : gearSearch (avg_gear_ratio speed_data cadence_data gradient_data) =
          (some (chainring, cog, ratio),
            (gearSearch (avg_gear_ratio speed_data cadence_data gradient_data)).2) := by
        rw [← hx]
      rw [hpair]
      apply iff_of_false
      · simp
      · intro hns
        exact hv ((valid_indices_eq_nil_iff _ _ _).mpr hns)
  · intro h
    unfold analyze_gear_ratio
    by_cases he : speed_data = [] ∨ cadence_data = [] ∨ gradient_data = []
    · rw [if_pos he]
      exact ⟨.emptyInput, rfl⟩
    · rw [if_neg he, if_pos (by tauto)]
      exact ⟨.lengthMismatch, rfl⟩

/-- C1 witness: a concrete surviving input, and a concrete empty input
that raises. -/
theorem analyze_gear_ratio_c1_witness :
    (analyze_gear_ratio [5] [80] [0] = .ok none ↔ ¬ gearSurvivor [5] [80] [0])
    ∧ (∃ e, analyze_gear_ratio [] [80] [0] = .error e) :=
  ⟨(analyze_gear_ratio_c1 [5] [80] [0]).1 (by simp) (by simp) (by simp) rfl rfl,
    (analyze_gear_ratio_c1 [] [80] [0]).2 (Or.inl rfl)⟩

/-! ### XmlSummaryParser: `parse_xml_file` (activity_parser.py lines 28-62)

A well-formed document is abstracted by the pieces the parser accesses
through ElementTree: the first Activity element with its Sport attribute,
the first DistanceMeters / TotalTimeSeconds / Calories elements, and all
HeartRateBpm/Value elements in document order.  A text node is abstracted
by the outcome of Python `float()` and `int()` on it. -/

/-- A text node, abstracted as the outcomes of Python `float(text)` and
`int(text)`: `none` means the call raises `ValueError`. -/
structure XmlText where
  toFloat : Option ℚ
  toInt : Option ℤ

/-- The parts of a well-formed XML document that `parse_xml_file` reads.
The outer `Option` of `activity` is the presence of an Activity element,
the inner one the presence of its Sport attribute. -/
structure XmlDoc where
  activity : Option (Option String)
  distance : Option XmlText
  duration : Option XmlText
  calories : Option XmlText
  hrValues : List XmlText

/-- The dictionary shape returned by `parse_xml_file`
(activity_parser.py lines 51-60). -/
structure XmlResult where
  sport : String
  duration : Option ℚ
  distance : Option ℚ
  maxHR : Option ℤ
  avgPower : Option ℚ
  calories : Option ℤ

/-- A float-parsed optional element: an absent element becomes the null
field; a present element whose text does not parse raises, failing the
whole document (activity_parser.py lines 36-39 under the broad `except`
of line 61). -/
def parseFloatField (e : Option XmlText) : Option (Option ℚ) :=
  match e with
  | none => some none
  | some t =>
    match t.toFloat with
    | none => none
    | some q => some (some q)

/-- An int-parsed optional element (activity_parser.py lines 40-41). -/
def parseIntField (e : Option XmlText) : Option (Option ℤ) :=
  match e with
  | none => some none
  | some t =>
    match t.toInt with
    | none => none
    | some n => some (some n)

/-- Embedding of `parse_xml_file` (activity_parser.py lines 28-62): a
missing Activity element raises AttributeError, an unparsable numeric
text raises ValueError; both are caught by the catch-all handler and
become `none` (ParseFailure).  Unparsable heart-rate values are skipped
individually by the inner try/except, and max heart rate is `None` when
no value parses. -/
def parse_xml_file (d : XmlDoc) : Option XmlResult := do
  let sportAttr ← d.activity
  let distance ← parseFloatField d.distance
  let duration ← parseFloatField d.duration
  let calories ← parseIntField d.calories
  some ⟨sportAttr.getD "other", duration, distance,
    (d.hrValues.filterMap XmlText.toInt).max?, none, calories⟩

/-- C6 counterexample: a document whose DistanceMeters text does not
parse as a number makes the whole parse fail (return None), instead of
yielding a result with a null distance as the claim states. -/
theorem parse_xml_c6_counterexample :
    parse_xml_file ⟨some (some "running"), some ⟨none, none⟩, none, none, []⟩ = none
    ∧ (⟨some (some "running"), some ⟨none, none⟩, none, none, []⟩ : XmlDoc).activity.isSome
      = true := by
  constructor
  · rfl
  · rfl

/-- C6 (amended): for a well-formed document with an Activity element,
the parse fails (ParseFailure / None) exactly when some present numeric
element has unparsable text; when it succeeds, each of distance, duration
and calories is null exactly when the element is absent, and max heart
rate is the maximum of the parsable HeartRateBpm/Value elements (null
when none parse, unparsable ones skipped individually). -/
theorem parse_xml_c6 (d : XmlDoc) (a : Option String) (ha : d.activity = some a) :
    (parse_xml_file d = none ↔
      ((∃ t, d.distance = some t ∧ t.toFloat = none)
        ∨ (∃ t, d.duration = some t ∧ t.toFloat = none)
        ∨ (∃ t, d.calories = some t ∧ t.toInt = none)))
    ∧ (∀ r, parse_xml_file d = some r →
        r.sport = a.getD "other"
        ∧ r.distance = d.distance.bind XmlText.toFloat
        ∧ r.duration = d.duration.bind XmlText.toFloat
        ∧ r.calories = d.calories.bind XmlText.toInt
        ∧ r.maxHR = (d.hrValues.filterMap XmlText.toInt).max?
        ∧ r.avgPower = none) := by
  obtain ⟨oa, odist, odur, ocal, hrs⟩ := d
  simp only [XmlDoc.activity] at ha
  subst ha
  rcases odist with _ | t1 <;> rcases odur with _ | t2 <;> rcases ocal with _ | t3
  all_goals try rcases h1 : t1.toFloat with _ | q1
  all_goals try rcases h2 : t2.toFloat with _ | q2
  all_goals try rcases h3 : t3.toInt with _ | q3
  all_goals refine ⟨?_, ?_⟩
  all_goals try intro r hr
  all_goals simp_all [parse_xml_file, parseFloatField, parseIntField]
  all_goals try subst hr
  all_goals simp

/-- C6 witness: the amended failure characterization at a concrete
document with an Activity element and an unparsable DistanceMeters. -/
theorem parse_xml_c6_witness :
    parse_xml_file ⟨some (some "biking"), some ⟨none, none⟩, none, none, []⟩ = none ↔
      ((∃ t, (some (⟨none, none⟩ : XmlText) : Option XmlText) = some t ∧ t.toFloat = none)
        ∨ (∃ t, (none : Option XmlText) = some t ∧ t.toFloat = none)
        ∨ (∃ t, (none : Option XmlText) = some t ∧ t.toInt = none)) :=
  (parse_xml_c6 ⟨some (some "biking"), some ⟨none, none⟩, none, none, []⟩
    (some "biking") rfl).1

/-! ### GeospatialMath: `distance_between_points` and `compute_gradient`
(activity_parser.py lines 64-93) -/

/-- Python `math.radians`. -/
noncomputable def radians (x : ℝ) : ℝ := x * (Real.pi / 180)

/-- Python `math.atan2 y x` (two-argument arctangent).  The embedded code
only applies it to nonnegative arguments, where it agrees with the
first-quadrant case. -/
noncomputable def atan2 (y x : ℝ) : ℝ :=
  if 0 < x then Real.arctan (y / x)
  else if x < 0 then
    (if 0 ≤ y then Real.arctan (y / x) + Real.pi else Real.arctan (y / x) - Real.pi)
  else
    (if 0 < y then Real.pi / 2 else if y < 0 then -(Real.pi / 2) else 0)

/-- The haversine intermediate `a` of activity_parser.py line 90. -/
noncomputable def haverA (point1 point2 : ℝ × ℝ) : ℝ :=
  Real.sin ((radians point2.1 - radians point1.1) / 2) ^ 2 +
    Real.cos (radians point1.1) * Real.cos (radians point2.1) *
      Real.sin ((radians point2.2 - radians point1.2) / 2) ^ 2

/-- Embedding of `distance_between_points` (activity_parser.py lines
80-93): haversine great-circle distance with Earth radius 6371000 m. -/
noncomputable def distance_between_points (point1 point2 : ℝ × ℝ) : ℝ :=
  6371000 * (2 * atan2 (Real.sqrt (haverA point1 point2))
    (Real.sqrt (1 - haverA point1 point2)))

/-- The horizontal distance used for the index pair (i-1, i)
(activity_parser.py lines 72-75): the haversine distance when the
position list is non-empty and index i is inside it, else the fallback
`distance_m`. -/
noncomputable def gradient_distance (positions : List (ℝ × ℝ)) (distance_m : ℝ) (i : ℕ) : ℝ :=
  if positions ≠ [] ∧ i < positions.length then
    distance_between_points (positions.getD (i - 1) (0, 0)) (positions.getD i (0, 0))
  else distance_m

/-- Embedding of `compute_gradient` (activity_parser.py lines 64-78).
Python float division raises ZeroDivisionError when the divisor is zero,
modelled by `PyErr.zeroDivision`; otherwise each gradient is
(elevation change / horizontal distance) × 100 and the first computed
gradient is duplicated in front. -/
noncomputable def compute_gradient (altitudes : List ℝ) (positions : List (ℝ × ℝ))
    (distance_m : ℝ) : Except PyErr (List ℝ) :=
  if altitudes.length < 2 then .ok (List.replicate altitudes.length 0)
  else do
    let gradients ← (List.range' 1 (altitudes.length - 1)).mapM fun i =>
      if gradient_distance positions distance_m i = 0 then
        Except.error PyErr.zeroDivision
      else
        Except.ok ((altitudes.getD i 0 - altitudes.getD (i - 1) 0) /
          gradient_distance positions distance_m i * 100)
    .ok (gradients.getD 0 0 :: gradients)

theorem haverA_same : haverA (0, 0) (0, 0) = 0 := by
  unfold haverA radians
  simp

theorem distance_between_points_same : distance_between_points (0, 0) (0, 0) = 0 := by
  unfold distance_between_points atan2
  rw [haverA_same]
  simp [Real.sqrt_zero, Real.sqrt_one, Real.arctan_zero]

/-- C4 counterexample: two identical consecutive positions give haversine
distance 0, and the gradient computation raises ZeroDivisionError instead
of returning a series of the altitude series length. -/
theorem compute_gradient_c4_counterexample :
    compute_gradient [0, 10] [(0, 0), (0, 0)] 10 = .error .zeroDivision := by
  unfold compute_gradient
  rw [if_neg (by norm_num)]
  have h1 : List.range' 1 ([(0:ℝ), 10].length - 1) = [1] := by decide
  have hd : gradient_distance [((0:ℝ), (0:ℝ)), (0, 0)] 10 1 = 0 := by
    unfold gradient_distance
    rw [if_pos (by simp)]
    simpa using distance_between_points_same
  rw [h1]
  simp only [List.mapM_cons, List.mapM_nil, hd, if_pos]
  rfl

theorem mapM_except_ok {α β : Type} (f : α → Except PyErr β) (g : α → β) (l : List α)
    (h : ∀ a ∈ l, f a = .ok (g a)) : l.mapM f = .ok (l.map g) := by
  induction l with
  | nil => rfl
  | cons a l ih =>
    have ha := h a (List.mem_cons_self a l)
    have hl := ih fun x hx => h x (List.mem_cons_of_mem a hx)
    rw [List.mapM_cons, ha, hl, List.map_cons]
    rfl

/-- C4 (amended): `compute_gradient` returns a series of the altitude
series length with element i equal to (altitude[i] − altitude[i−1]) /
horizontal distance × 100 and element 0 duplicating element 1, and a
zero-filled series for fewer than 2 altitudes — provided no used
horizontal distance is zero; a zero haversine distance (identical
consecutive positions) instead raises ZeroDivisionError. -/
theorem compute_gradient_c4 (altitudes : List ℝ) (positions : List (ℝ × ℝ)) :
    (altitudes.length < 2 →
      ∃ out, compute_gradient altitudes positions 10 = .ok out
        ∧ out.length = altitudes.length ∧ ∀ x ∈ out, x = 0)
    ∧ ((∀ i, 1 ≤ i → i < altitudes.length → gradient_distance positions 10 i ≠ 0) →
      ∃ out, compute_gradient altitudes positions 10 = .ok out
        ∧ out.length = altitudes.length
        ∧ (∀ i, 1 ≤ i → i < altitudes.length →
            out.getD i 0 = (altitudes.getD i 0 - altitudes.getD (i - 1) 0) /
              gradient_distance positions 10 i * 100)
        ∧ (2 ≤ altitudes.length → out.getD 0 0 = out.getD 1 0)) := by
  constructor
  · intro hlt
    refine ⟨List.replicate altitudes.length 0, ?_, by simp, by simp⟩
    unfold compute_gradient
    rw [if_pos hlt]
  · intro hnz
    by_cases hlt : altitudes.length < 2
    · refine ⟨List.replicate altitudes.length 0, ?_, by simp, ?_, ?_⟩
      · unfold compute_gradient
        rw [if_pos hlt]
      · intro i h1 h2
        exact absurd (by omega : 2 ≤ altitudes.length) (by omega)
      · intro h2
        exact absurd h2 (by omega)
    · push_neg at hlt
      have hmap : (List.range' 1 (altitudes.length - 1)).mapM (fun i =>
          if gradient_distance positions 10 i = 0 then
            Except.error PyErr.zeroDivision
          else
            Except.ok ((altitudes.getD i 0 - altitudes.getD (i - 1) 0) /
              gradient_distance positions 10 i * 100))
          = .ok ((List.range' 1 (altitudes.length - 1)).map fun i =>
            (altitudes.getD i 0 - altitudes.getD (i - 1) 0) /
              gradient_distance positions 10 i * 100) := by
        apply mapM_except_ok
        intro i hi
        rw [List.mem_range'_1] at hi
        rw [if_neg (hnz i hi.1 (by omega))]
      refine ⟨((List.range' 1 (altitudes.length - 1)).map fun i =>
          (altitudes.getD i 0 - altitudes.getD (i - 1) 0) /
            gradient_distance positions 10 i * 100).getD 0 0 ::
        ((List.range' 1 (altitudes.length - 1)).map fun i =>
          (altitudes.getD i 0 - altitudes.getD (i - 1) 0) /
            gradient_distance positions 10 i * 100), ?_, ?_, ?_, ?_⟩
      · unfold compute_gradient
        rw [if_neg (not_lt.mpr hlt)]
        rw [hmap]
        rfl
      · simp only [List.length_cons, List.length_map, List.length_range']
        omega
      · intro i h1 h2
        obtain ⟨j, rfl⟩ : ∃ j, i = j + 1 := ⟨i - 1, by omega⟩
        rw [List.getD_cons_succ]
        have hjlen : j < ((List.range' 1 (altitudes.length - 1)).map fun i =>
            (altitudes.getD i 0 - altitudes.getD (i - 1) 0) /
              gradient_distance positions 10 i * 100).length := by
          simp only [List.length_map, List.length_range']
          omega
        rw [getD_of_lt _ _ _ hjlen]
        simp only [List.get_eq_getElem, List.getElem_map, List.getElem_range'_1]
        rw [show 1 + j = j + 1 by omega]
      · intro h2
        rw [List.getD_cons_zero, List.getD_cons_succ]

/-- C4 witness: the amended success case at altitudes [0, 10] with no
positions, where the fallback distance 10 is never zero. -/
theorem compute_gradient_c4_witness :
    ∃ out, compute_gradient [0, 10] [] 10 = .ok out
      ∧ out.length = ([(0:ℝ), 10]).length
      ∧ (∀ i, 1 ≤ i → i < ([(0:ℝ), 10]).length →
          out.getD i 0 = (([(0:ℝ), 10]).getD i 0 - ([(0:ℝ), 10]).getD (i - 1) 0) /
            gradient_distance [] 10 i * 100)
      ∧ (2 ≤ ([(0:ℝ), 10]).length → out.getD 0 0 = out.getD 1 0) :=
  (compute_gradient_c4 [0, 10] []).2 fun i h1 h2 => by
    unfold gradient_distance
    rw [if_neg (by simp)]
    norm_num

/-! ### BinaryStreamParser and MetricsPipeline: `parse_fit_file`
(activity_parser.py lines 95-209)

The fitdecode layer is abstracted away: the input is the list of decoded
data frames in stream order, each either a `record` frame, a `session`
frame or some other frame (ignored).  A frame field is `Option ℝ`: `none`
models `get_value` returning None.  The gzip branch and the plain branch
of the source run the identical frame loop, so a single loop is embedded.
Timestamps are accumulated through the same truthiness test the source
applies to every field. -/

structure RecordFrame where
  timestamp : Option ℝ
  position_lat : Option ℝ
  position_long : Option ℝ
  altitude : Option ℝ
  speed : Option ℝ
  cadence : Option ℝ
  power : Option ℝ

structure SessionFrame where
  sport : Option String
  total_timer_time : Option ℝ
  total_distance : Option ℝ
  max_heart_rate : Option ℝ
  avg_power : Option ℝ
  total_calories : Option ℝ

inductive Frame where
  | record : RecordFrame → Frame
  | session : SessionFrame → Frame
  | other : Frame

/-- The `detailed_metrics` accumulator dictionary
(activity_parser.py lines 98-101). -/
structure Detailed where
  timestamps : List ℝ
  positions : List (ℝ × ℝ)
  altitudes : List ℝ
  speeds : List ℝ
  cadences : List ℝ
  powers : List ℝ
  gradients : List ℝ

def emptyDetailed : Detailed := ⟨[], [], [], [], [], [], []⟩

/-- Python `if value := frame.get_value(name): series.append(value)` —
walrus plus truthiness: a missing field (None) and a zero value are both
falsy, so a value is appended only when present and nonzero. -/
noncomputable def appendIf (l : List ℝ) (v : Option ℝ) : List ℝ :=
  match v with
  | none => l
  | some x => if x = 0 then l else l ++ [x]

/-- Position accumulation (activity_parser.py lines 122-123): both
latitude and longitude must be truthy (present and nonzero) for the pair
to be appended. -/
noncomputable def appendPos (l : List (ℝ × ℝ)) (la lo : Option ℝ) : List (ℝ × ℝ) :=
  match la, lo with
  | some x, some y => if x = 0 ∨ y = 0 then l else l ++ [(x, y)]
  | _, _ => l

/-- Accumulate one record frame into the detailed-metrics series
(activity_parser.py lines 119-131). -/
noncomputable def accumRecord (dm : Detailed) (r : RecordFrame) : Detailed :=
  ⟨appendIf dm.timestamps r.timestamp,
    appendPos dm.positions r.position_lat r.position_long,
    appendIf dm.altitudes r.altitude,
    appendIf dm.speeds r.speed,
    appendIf dm.cadences r.cadence,
    appendIf dm.powers r.power,
    dm.gradients⟩

/-- The record-frame accumulation over the whole stream. -/
noncomputable def extractDetailed (frames : List Frame) : Detailed :=
  frames.foldl
    (fun dm f =>
      match f with
      | .record r => accumRecord dm r
      | _ => dm)
    emptyDetailed

/-- The session summary: each session frame overwrites the previous one
(last-wins, activity_parser.py lines 133-141); `none` models the empty
`metrics` dictionary when no session frame occurs. -/
def extractSession (frames : List Frame) : Option SessionFrame :=
  frames.foldl
    (fun acc f =>
      match f with
      | .session s => some s
      | _ => acc)
    none

/-- `metrics.get("sport")`. -/
def sportOf (frames : List Frame) : Option String :=
  (extractSession frames).bind SessionFrame.sport

/-- The fixed cycling sport set of activity_parser.py line 178. -/
def cyclingSports : List (Option String) :=
  [some "cycling", some "road_biking", some "mountain_biking"]

/-- `np.mean` of a list. -/
noncomputable def listMean (l : List ℝ) : ℝ := l.sum / (l.length : ℝ)

/-- `metrics.get("sport", "other")`: the default applies only when the
key is absent (no session frame); a session frame whose sport field is
None yields None, not "other". -/
def activityTypeOf (sess : Option SessionFrame) : Option String :=
  match sess with
  | none => some "other"
  | some s => s.sport

/-- The result dictionary of `parse_fit_file`
(activity_parser.py lines 195-206). -/
structure FitResult where
  activityType : Option String
  duration : Option ℝ
  distance : Option ℝ
  maxHR : Option ℝ
  avgPower : Option ℝ
  calories : Option ℝ
  gearAnalysis : Option GearPayload
  detailed : Detailed

/-- The body of `parse_fit_file` inside its `try` block
(activity_parser.py lines 106-206): accumulate frames, compute gradients
when altitude data exists, then for cycling sports estimate power when no
device power was recorded (overwriting `avg_power`) and run the gear
analysis when speed and cadence data exist. -/
noncomputable def parse_fit_file_inner (frames : List Frame) : Except PyErr FitResult :=
  (if (extractDetailed frames).altitudes = [] then Except.ok ([] : List ℝ)
    else compute_gradient (extractDetailed frames).altitudes
      (extractDetailed frames).positions 10) >>= fun grads =>
  if sportOf frames ∈ cyclingSports then
    (if (extractDetailed frames).powers = [] then
        (((extractDetailed frames).speeds.zip grads).mapM fun sg =>
          calculate_power sg.1 sg.2 20 0) >>= fun ps =>
        Except.ok (ps, if ps = [] then (none : Option ℝ) else some (listMean ps))
      else Except.ok ((extractDetailed frames).powers,
        (extractSession frames).bind SessionFrame.avg_power)) >>= fun pe =>
    (if (extractDetailed frames).speeds ≠ [] ∧
        (extractDetailed frames).cadences ≠ [] then
        analyze_gear_ratio (extractDetailed frames).speeds
          (extractDetailed frames).cadences grads
      else Except.ok (none : Option GearPayload)) >>= fun gear =>
    Except.ok ⟨activityTypeOf (extractSession frames),
      (extractSession frames).bind SessionFrame.total_timer_time,
      (extractSession frames).bind SessionFrame.total_distance,
      (extractSession frames).bind SessionFrame.max_heart_rate,
      pe.2, (extractSession frames).bind SessionFrame.total_calories, gear,
      ⟨(extractDetailed frames).timestamps, (extractDetailed frames).positions,
        (extractDetailed frames).altitudes, (extractDetailed frames).speeds,
        (extractDetailed frames).cadences, pe.1, grads⟩⟩
  else
    Except.ok ⟨activityTypeOf (extractSession frames),
      (extractSession frames).bind SessionFrame.total_timer_time,
      (extractSession frames).bind SessionFrame.total_distance,
      (extractSession frames).bind SessionFrame.max_heart_rate,
      (extractSession frames).bind SessionFrame.avg_power,
      (extractSession frames).bind SessionFrame.total_calories,
      none,
      ⟨(extractDetailed frames).timestamps, (extractDetailed frames).positions,
        (extractDetailed frames).altitudes, (extractDetailed frames).speeds,
        (extractDetailed frames).cadences, (extractDetailed frames).powers, grads⟩⟩

/-- The broad `except Exception` of activity_parser.py lines 207-209:
every raised exception becomes a plain None return. -/
noncomputable def parse_fit_file (frames : List Frame) : Option FitResult :=
  (parse_fit_file_inner frames).toOption

theorem except_bind_ok {α β : Type} (x : Except PyErr α) (f : α → Except PyErr β) (b : β) :
    (x >>= f) = .ok b ↔ ∃ a, x = .ok a ∧ f a = .ok b := by
  cases x <;> simp [Bind.bind, Except.bind]

theorem toOption_eq_some {α : Type} (x : Except PyErr α) (a : α) :
    x.toOption = some a ↔ x = .ok a := by
  cases x <;> simp [Except.toOption]

theorem appendIf_no_zero (l : List ℝ) (v : Option ℝ) (h : (0:ℝ) ∉ l) :
    (0:ℝ) ∉ appendIf l v := by
  rcases v with _ | x
  · exact h
  · show (0:ℝ) ∉ (if x = 0 then l else l ++ [x])
    split_ifs with hx
    · exact h
    · simp only [List.mem_append, List.mem_singleton]
      rintro (hl | hx0)
      · exact h hl
      · exact hx hx0.symm

theorem extractDetailed_no_zero_aux (frames : List Frame) (dm : Detailed)
    (h : (0:ℝ) ∉ dm.altitudes ∧ (0:ℝ) ∉ dm.speeds ∧ (0:ℝ) ∉ dm.cadences ∧ (0:ℝ) ∉ dm.powers) :
    (0:ℝ) ∉ (frames.foldl
        (fun dm f =>
          match f with
          | Frame.record r => accumRecord dm r
          | _ => dm) dm).altitudes
    ∧ (0:ℝ) ∉ (frames.foldl
        (fun dm f =>
          match f with
          | Frame.record r => accumRecord dm r
          | _ => dm) dm).speeds
    ∧ (0:ℝ) ∉ (frames.foldl
        (fun dm f =>
          match f with
          | Frame.record r => accumRecord dm r
          | _ => dm) dm).cadences
    ∧ (0:ℝ) ∉ (frames.foldl
        (fun dm f =>
          match f with
          | Frame.record r => accumRecord dm r
          | _ => dm) dm).powers := by
  induction frames generalizing dm with
  | nil => exact h
  | cons f frames ih =>
    rw [List.foldl_cons]
    apply ih
    match f with
    | Frame.record r =>
      exact ⟨appendIf_no_zero _ _ h.1, appendIf_no_zero _ _ h.2.1,
        appendIf_no_zero _ _ h.2.2.1, appendIf_no_zero _ _ h.2.2.2⟩
    | Frame.session s => exact h
    | Frame.other => exact h

/-- C9: a record-frame field that is present but zero is treated exactly
like an absent field — it contributes nothing to its accumulator series
(for positions, a zero latitude or longitude suppresses the pair) — and
consequently zero readings never occur in the extracted altitude, speed,
cadence or power series. -/
theorem accum_zero_c9 :
    (∀ (dm : Detailed) (t la lo alt sp cad pw : Option ℝ),
      accumRecord dm ⟨t, la, lo, some 0, sp, cad, pw⟩ =
          accumRecord dm ⟨t, la, lo, none, sp, cad, pw⟩
        ∧ accumRecord dm ⟨t, la, lo, alt, some 0, cad, pw⟩ =
          accumRecord dm ⟨t, la, lo, alt, none, cad, pw⟩
        ∧ accumRecord dm ⟨t, la, lo, alt, sp, some 0, pw⟩ =
          accumRecord dm ⟨t, la, lo, alt, sp, none, pw⟩
        ∧ accumRecord dm ⟨t, la, lo, alt, sp, cad, some 0⟩ =
          accumRecord dm ⟨t, la, lo, alt, sp, cad, none⟩
        ∧ accumRecord dm ⟨t, some 0, lo, alt, sp, cad, pw⟩ =
          accumRecord dm ⟨t, none, lo, alt, sp, cad, pw⟩
        ∧ accumRecord dm ⟨t, la, some 0, alt, sp, cad, pw⟩ =
          accumRecord dm ⟨t, la, none, alt, sp, cad, pw⟩)
    ∧ (∀ frames : List Frame,
        (0:ℝ) ∉ (extractDetailed frames).altitudes
        ∧ (0:ℝ) ∉ (extractDetailed frames).speeds
        ∧ (0:ℝ) ∉ (extractDetailed frames).cadences
        ∧ (0:ℝ) ∉ (extractDetailed frames).powers) := by
  constructor
  · intro dm t la lo alt sp cad pw
    refine ⟨?_, ?_, ?_, ?_, ?_, ?_⟩ <;> unfold accumRecord <;> simp only [appendIf]
    · simp
    · simp
    · simp
    · simp
    · rcases lo with _ | y <;> simp [appendPos]
    · rcases la with _ | x <;> simp [appendPos]
  · intro frames
    exact extractDetailed_no_zero_aux frames emptyDetailed
      (by simp [emptyDetailed])

/-! Concrete frame streams used by the pipeline claims. -/

/-- A cycling session followed by one record with speed and cadence but
no altitude: the pipeline reaches the gear analysis with an empty
gradient series indirectly built from the missing altitudes, and the
analysis raises its empty-input ValueError. -/
noncomputable def framesC8 : List Frame :=
  [Frame.session ⟨some "cycling", none, none, none, some 200, none⟩,
    Frame.record ⟨none, none, none, none, some 5, some 80, none⟩]

theorem extractDetailed_framesC8 :
    extractDetailed framesC8 = ⟨[], [], [], [5], [80], [], []⟩ := by
  norm_num [extractDetailed, framesC8, accumRecord, appendIf, appendPos, emptyDetailed]

theorem extractSession_framesC8 :
    extractSession framesC8 = some ⟨some "cycling", none, none, none, some 200, none⟩ := rfl

theorem inner_framesC8 : parse_fit_file_inner framesC8 = .error .emptyInput := by
  simp [parse_fit_file_inner, extractDetailed_framesC8, extractSession_framesC8,
    sportOf, cyclingSports, analyze_gear_ratio, Bind.bind, Except.bind]
  rfl

/-- C9 witness: the zero-suppression equalities and non-membership at a
concrete accumulator and frame. -/
theorem accum_zero_c9_witness :
    accumRecord emptyDetailed ⟨none, none, none, some 0, some 5, none, none⟩ =
        accumRecord emptyDetailed ⟨none, none, none, none, some 5, none, none⟩
    ∧ (0:ℝ) ∉ (extractDetailed
        [Frame.record ⟨none, none, none, some 0, some 5, none, none⟩]).altitudes :=
  ⟨(accum_zero_c9.1 emptyDetailed none none none none (some 5) none none).1,
    (accum_zero_c9.2 [Frame.record ⟨none, none, none, some 0, some 5, none, none⟩]).1⟩

/-- C8 counterexample: on `framesC8` the gear analysis raises its
ValidationFailure (empty gradient series), and `parse_fit_file` converts
it to None — the same outcome as "no local result", which triggers the
remote fallback — instead of surfacing it. -/
theorem parse_fit_c8_counterexample :
    parse_fit_file_inner framesC8 = .error .emptyInput
    ∧ parse_fit_file framesC8 = none := by
  refine ⟨inner_framesC8, ?_⟩
  unfold parse_fit_file
  rw [inner_framesC8]
  rfl

/-- C8 (amended): a ValidationFailure raised by the estimators during
pipeline processing is caught by the broad exception handler of
`parse_fit_file` and converted into the None outcome that triggers
remote fallback; it is never surfaced to the caller as a distinct
error. -/
theorem parse_fit_c8 (frames : List Frame) (e : PyErr)
    (h : parse_fit_file_inner frames = .error e) :
    parse_fit_file frames = none := by
  unfold parse_fit_file
  rw [h]
  rfl

/-- C8 witness: the amended behaviour at the concrete failing stream. -/
theorem parse_fit_c8_witness : parse_fit_file framesC8 = none :=
  parse_fit_c8 framesC8 .emptyInput inner_framesC8

/-- C7: whenever the pipeline returns a result, a non-cycling sport
leaves the power series exactly as extracted (no estimated power), no
gear analysis is attached, and the average power is the session frame's
value; and for a cycling sport with device-reported power present, no
estimation happens either: the power series and average power are the
device values. -/
theorem parse_fit_c7 (frames : List Frame) (r : FitResult)
    (hr : parse_fit_file frames = some r) :
    (sportOf frames ∉ cyclingSports →
      r.detailed.powers = (extractDetailed frames).powers
      ∧ r.gearAnalysis = none
      ∧ r.avgPower = (extractSession frames).bind SessionFrame.avg_power)
    ∧ (sportOf frames ∈ cyclingSports → (extractDetailed frames).powers ≠ [] →
      r.detailed.powers = (extractDetailed frames).powers
      ∧ r.avgPower = (extractSession frames).bind SessionFrame.avg_power) := by
  unfold parse_fit_file at hr
  rw [toOption_eq_some] at hr
  unfold parse_fit_file_inner at hr
  obtain ⟨grads, hgrads, hr⟩ := (except_bind_ok _ _ _).mp hr
  constructor
  · intro hnot
    rw [if_neg hnot] at hr
    injection hr with hr
    subst hr
    exact ⟨rfl, rfl, rfl⟩
  · intro hcyc hpow
    rw [if_pos hcyc] at hr
    obtain ⟨pe, hpe, hr⟩ := (except_bind_ok _ _ _).mp hr
    rw [if_neg hpow] at hpe
    injection hpe with hpe
    subst hpe
    obtain ⟨gear, hgear, hr⟩ := (except_bind_ok _ _ _).mp hr
    injection hr with hr
    subst hr
    exact ⟨rfl, rfl⟩

/-- A running session followed by one record with speed and a
device-reported power. -/
noncomputable def framesC7 : List Frame :=
  [Frame.session ⟨some "running", none, none, none, some 150, none⟩,
    Frame.record ⟨none, none, none, none, some 5, none, some 250⟩]

theorem extractDetailed_framesC7 :
    extractDetailed framesC7 = ⟨[], [], [], [5], [], [250], []⟩ := by
  norm_num [extractDetailed, framesC7, accumRecord, appendIf, appendPos, emptyDetailed]

theorem extractSession_framesC7 :
    extractSession framesC7 = some ⟨some "running", none, none, none, some 150, none⟩ := rfl

/-- The result the pipeline assembles for `framesC7`. -/
noncomputable def resultC7 : FitResult :=
  ⟨some "running", none, none, none, some 150, none, none, ⟨[], [], [], [5], [], [250], []⟩⟩

theorem parse_framesC7 : parse_fit_file framesC7 = some resultC7 := by
  have hinner : parse_fit_file_inner framesC7 = .ok resultC7 := by
    simp [parse_fit_file_inner, extractDetailed_framesC7, extractSession_framesC7,
      sportOf, cyclingSports, Bind.bind, Except.bind, activityTypeOf, resultC7]
  unfold parse_fit_file
  rw [hinner]
  rfl

/-- C7 witness: the non-cycling gate at the concrete running stream. -/
theorem parse_fit_c7_witness :
    resultC7.detailed.powers = (extractDetailed framesC7).powers
    ∧ resultC7.gearAnalysis = none
    ∧ resultC7.avgPower = (extractSession framesC7).bind SessionFrame.avg_power :=
  (parse_fit_c7 framesC7 resultC7 parse_framesC7).1
    (by simp [sportOf, extractSession, framesC7, cyclingSports])

theorem mapM_calc_inv (l : List (ℝ × ℝ)) (bs : List ℝ)
    (h : l.mapM (fun sg => calculate_power sg.1 sg.2 20 0) = .ok bs) :
    bs = l.map fun sg => power_value sg.1 sg.2 20 0 := by
  induction l generalizing bs with
  | nil =>
    rw [List.mapM_nil] at h
    rw [show (pure [] : Except PyErr (List ℝ)) = Except.ok [] from rfl] at h
    injection h with h
    rw [← h, List.map_nil]
  | cons a l ih =>
    rw [List.mapM_cons] at h
    unfold calculate_power at h
    by_cases ha : a.1 < 0
    · rw [if_pos ha] at h
      obtain ⟨b, hb, -⟩ := (except_bind_ok _ _ _).mp h
      exact absurd hb (by simp)
    · rw [if_neg ha] at h
      obtain ⟨b, hb, h⟩ := (except_bind_ok _ _ _).mp h
      injection hb with hb
      subst hb
      obtain ⟨bs', hbs', h⟩ := (except_bind_ok _ _ _).mp h
      rw [show (pure (power_value a.1 a.2 20 0 :: bs') : Except PyErr (List ℝ)) =
        Except.ok (power_value a.1 a.2 20 0 :: bs') from rfl] at h
      injection h with h
      rw [← h, List.map_cons, ← ih bs' hbs']

/-- C10 (amended): when a cycling activity has no device-reported power,
the result's power series consists exactly of the physics estimates for
each (speed, gradient) pair, and the summary's average power is
overwritten — with the arithmetic mean of those estimates when at least
one pair exists, and with null when there are no pairs (for instance
when no altitude data produced gradients); the session frame's avg_power
is replaced either way. -/
theorem parse_fit_c10 (frames : List Frame) (r : FitResult)
    (hcyc : sportOf frames ∈ cyclingSports)
    (hpow : (extractDetailed frames).powers = [])
    (hr : parse_fit_file frames = some r) :
    r.detailed.powers = (((extractDetailed frames).speeds.zip r.detailed.gradients).map
        fun sg => power_value sg.1 sg.2 20 0)
    ∧ r.avgPower = (if r.detailed.powers = ([] : List ℝ) then none
        else some (listMean r.detailed.powers)) := by
  unfold parse_fit_file at hr
  rw [toOption_eq_some] at hr
  unfold parse_fit_file_inner at hr
  obtain ⟨grads, hgrads, hr⟩ := (except_bind_ok _ _ _).mp hr
  rw [if_pos hcyc] at hr
  obtain ⟨pe, hpe, hr⟩ := (except_bind_ok _ _ _).mp hr
  rw [if_pos hpow] at hpe
  obtain ⟨ps, hps, hpe⟩ := (except_bind_ok _ _ _).mp hpe
  injection hpe with hpe
  subst hpe
  obtain ⟨gear, hgear, hr⟩ := (except_bind_ok _ _ _).mp hr
  injection hr with hr
  subst hr
  exact ⟨mapM_calc_inv _ _ hps, rfl⟩

/-- A cycling session carrying avg_power 200, followed by one record
with a speed sample only: no device power and no altitude data. -/
noncomputable def framesC10 : List Frame :=
  [Frame.session ⟨some "cycling", none, none, none, some 200, none⟩,
    Frame.record ⟨none, none, none, none, some 5, none, none⟩]

theorem extractDetailed_framesC10 :
    extractDetailed framesC10 = ⟨[], [], [], [5], [], [], []⟩ := by
  norm_num [extractDetailed, framesC10, accumRecord, appendIf, appendPos, emptyDetailed]

theorem extractSession_framesC10 :
    extractSession framesC10 = some ⟨some "cycling", none, none, none, some 200, none⟩ := rfl

/-- The result the pipeline assembles for `framesC10`: note the null
average power. -/
noncomputable def resultC10 : FitResult :=
  ⟨some "cycling", none, none, none, none, none, none, ⟨[], [], [], [5], [], [], []⟩⟩

theorem parse_framesC10 : parse_fit_file framesC10 = some resultC10 := by
  have hnil : List.mapM.loop (fun sg : ℝ × ℝ => calculate_power sg.1 sg.2 20 0) [] []
      = Except.ok [] := rfl
  have hinner : parse_fit_file_inner framesC10 = .ok resultC10 := by
    simp [parse_fit_file_inner, extractDetailed_framesC10, extractSession_framesC10,
      sportOf, cyclingSports, Bind.bind, Except.bind, activityTypeOf, resultC10, hnil]
  unfold parse_fit_file
  rw [hinner]
  rfl

/-- C10 counterexample: a cycling stream whose session carries
avg_power 200, with a speed sample present and the device power series
empty, for which the pipeline overwrites the average power with null —
not with an arithmetic mean — because no (speed, gradient) pair exists. -/
theorem parse_fit_c10_counterexample :
    parse_fit_file framesC10 = some resultC10
    ∧ (extractSession framesC10).bind SessionFrame.avg_power = some 200
    ∧ (extractDetailed framesC10).speeds ≠ []
    ∧ (extractDetailed framesC10).powers = []
    ∧ resultC10.avgPower = none := by
  refine ⟨parse_framesC10, rfl, ?_, ?_, rfl⟩
  · rw [extractDetailed_framesC10]
    simp
  · rw [extractDetailed_framesC10]

/-- C10 witness: the amended behaviour at the concrete cycling stream
with no gradients. -/
theorem parse_fit_c10_witness :
    resultC10.detailed.powers = (((extractDetailed framesC10).speeds.zip
        resultC10.detailed.gradients).map fun sg => power_value sg.1 sg.2 20 0)
    ∧ resultC10.avgPower = (if resultC10.detailed.powers = ([] : List ℝ) then none
        else some (listMean resultC10.detailed.powers)) :=
  parse_fit_c10 framesC10 resultC10
    (by simp [sportOf, extractSession_framesC10, cyclingSports])
    (by rw [extractDetailed_framesC10]) parse_framesC10

end GarminSync
